import Mathlib

/-!
Verification of the AI travel planner repository (crew.py, main.py, config.py).

The development embeds the deterministic parts of the program as executable
Lean definitions, translated statement by statement from the Python source:

* the expense-calculation tool with its character filter and the arithmetic
  fragment of the Python expression evaluator it delegates to;
* the CLI input flow (date parsing with strptime semantics for the
  YYYY-MM-DD format, duration derivation, interest/budget/style fallbacks);
* the TravelRequest value object and its dictionary serialization;
* the three-task planning workflow and its sequential crew;
* the Flask request handler of the /plan endpoint;
* the startup credential checks of the two entry points.

External collaborators (the LLM, the search API, the crewai framework
internals) are modelled as opaque parameters, as the specification treats
them as out of scope.  Numeric values of the expression evaluator are
modelled with exact rationals; prompt template text is elided, which the
specification declares a non-goal.
-/

/-! ## Expense-calculation tool (crew.py, TravelTools.calculate_expenses)

The tool first checks that every character of the input lies in the set
0123456789+-*/.() and space; otherwise it answers with the invalid-character
message without evaluating.  It then evaluates the string as a Python
expression inside a try block; any exception becomes a calculation-error
message.  We model the arithmetic fragment of the Python evaluator that is
reachable from this character set: integer and decimal literals (with the
Python 3 leading-zero rule), unary plus/minus, binary + - * / // **,
parentheses, with division and floor division by zero and non-integral
exponents signalled as failures (a failure models a raised exception).
-/

/-- The allowed character set of calculate_expenses, from the source line
allowed_chars = set of the characters 0123456789+-*and so on. -/
def allowed_chars : List Char :=
  ['0', '1', '2', '3', '4', '5', '6', '7', '8', '9',
   '+', '-', '*', '/', '.', '(', ')', ' ']

/-- The character filter: all characters of the string lie in allowed_chars. -/
def allowedOnly (s : String) : Bool :=
  s.toList.all (fun c => allowed_chars.contains c)

/-- Tokens of the arithmetic fragment: numbers, the operators, parentheses.
Two adjacent stars form the power token, two adjacent slashes the floor
division token, as in the Python tokenizer. -/
inductive Tok where
  | num (v : Rat)
  | plus
  | minus
  | star
  | dstar
  | slash
  | dslash
  | lpar
  | rpar
deriving DecidableEq, Repr

/-- Character class of a numeric literal: a digit or the decimal point. -/
def numChar (c : Char) : Bool := c.isDigit || c == '.'

/-- Value of a digit run read in base ten. -/
def digitsToNat (l : List Char) : Nat :=
  l.foldl (fun a c => 10 * a + (c.toNat - '0'.toNat)) 0

/-- Value of a maximal digit-and-dot run, following the Python 3 literal
grammar: an integer literal is all zeros or has no leading zero; a decimal
literal has exactly one dot and at least one digit.  Failure models a
SyntaxError raised by eval. -/
def numLit (run : List Char) : Option Rat :=
  if run.all Char.isDigit then
    if run.isEmpty then none
    else if run.all (fun c => c == '0') || run.head? != some '0' then
      some (digitsToNat run)
    else none
  else
    let ip := run.takeWhile (fun c => c != '.')
    let rest := run.dropWhile (fun c => c != '.')
    match rest with
    | '.' :: fp =>
      if ip.all Char.isDigit && fp.all Char.isDigit && 0 < ip.length + fp.length then
        some ((digitsToNat (ip ++ fp) : Rat) / ((10 : Rat) ^ fp.length))
      else none
    | _ => none

/-- Tokenizer for the arithmetic fragment, fueled by the character count:
every step consumes at least one character and one unit of fuel, so fuel
equal to the length plus one always suffices. -/
def lexRun : Nat → List Char → Option (List Tok)
  | _, [] => some []
  | 0, _ :: _ => none
  | n + 1, ' ' :: cs => lexRun n cs
  | n + 1, '*' :: '*' :: cs => (lexRun n cs).map (fun ts => Tok.dstar :: ts)
  | n + 1, '/' :: '/' :: cs => (lexRun n cs).map (fun ts => Tok.dslash :: ts)
  | n + 1, '*' :: cs => (lexRun n cs).map (fun ts => Tok.star :: ts)
  | n + 1, '/' :: cs => (lexRun n cs).map (fun ts => Tok.slash :: ts)
  | n + 1, '+' :: cs => (lexRun n cs).map (fun ts => Tok.plus :: ts)
  | n + 1, '-' :: cs => (lexRun n cs).map (fun ts => Tok.minus :: ts)
  | n + 1, '(' :: cs => (lexRun n cs).map (fun ts => Tok.lpar :: ts)
  | n + 1, ')' :: cs => (lexRun n cs).map (fun ts => Tok.rpar :: ts)
  | n + 1, c :: cs =>
    if numChar c then
      match numLit (c :: cs.takeWhile numChar) with
      | some v => (lexRun n (cs.dropWhile numChar)).map (fun ts => Tok.num v :: ts)
      | none => none
    else none

/-- Tokenize a character list. -/
def lexTokens (cs : List Char) : Option (List Tok) :=
  lexRun (cs.length + 1) cs

/-- Integer power on rationals with the Python zero-base rule: a negative
exponent of zero raises ZeroDivisionError, modelled as failure. -/
def ratPow (q : Rat) (n : Int) : Option Rat :=
  match n with
  | Int.ofNat m => some (q ^ m)
  | Int.negSucc m => if q = 0 then none else some ((q ^ (m + 1))⁻¹)

mutual

/-- Additive level of the Python expression grammar: term ((+|-) term)*. -/
def pExpr : Nat → List Tok → Option (Rat × List Tok)
  | 0, _ => none
  | n + 1, ts =>
    match pTerm n ts with
    | some (v, ts1) => pExprTail n v ts1
    | none => none

/-- Left-associative tail of the additive level. -/
def pExprTail : Nat → Rat → List Tok → Option (Rat × List Tok)
  | 0, _, _ => none
  | n + 1, v, Tok.plus :: ts =>
    match pTerm n ts with
    | some (w, ts1) => pExprTail n (v + w) ts1
    | none => none
  | n + 1, v, Tok.minus :: ts =>
    match pTerm n ts with
    | some (w, ts1) => pExprTail n (v - w) ts1
    | none => none
  | _ + 1, v, ts => some (v, ts)

/-- Multiplicative level: unary ((*|/|//) unary)*. -/
def pTerm : Nat → List Tok → Option (Rat × List Tok)
  | 0, _ => none
  | n + 1, ts =>
    match pUnary n ts with
    | some (v, ts1) => pTermTail n v ts1
    | none => none

/-- Left-associative tail of the multiplicative level.  True division and
floor division by zero model ZeroDivisionError as failure. -/
def pTermTail : Nat → Rat → List Tok → Option (Rat × List Tok)
  | 0, _, _ => none
  | n + 1, v, Tok.star :: ts =>
    match pUnary n ts with
    | some (w, ts1) => pTermTail n (v * w) ts1
    | none => none
  | n + 1, v, Tok.slash :: ts =>
    match pUnary n ts with
    | some (w, ts1) => if w = 0 then none else pTermTail n (v / w) ts1
    | none => none
  | n + 1, v, Tok.dslash :: ts =>
    match pUnary n ts with
    | some (w, ts1) =>
      if w = 0 then none else pTermTail n ((Rat.floor (v / w) : Int) : Rat) ts1
    | none => none
  | _ + 1, v, ts => some (v, ts)

/-- Unary level: (+|-)* power, as in the Python grammar where unary minus
binds more loosely than the power operator. -/
def pUnary : Nat → List Tok → Option (Rat × List Tok)
  | 0, _ => none
  | n + 1, Tok.plus :: ts => pUnary n ts
  | n + 1, Tok.minus :: ts =>
    match pUnary n ts with
    | some (v, ts1) => some (-v, ts1)
    | none => none
  | n + 1, ts => pPower n ts

/-- Power level: atom (** unary)?, right associative with a unary exponent.
The model requires an integral exponent; a fractional exponent (which Python
would compute in floating point) is modelled as failure. -/
def pPower : Nat → List Tok → Option (Rat × List Tok)
  | 0, _ => none
  | n + 1, ts =>
    match pAtom n ts with
    | some (v, Tok.dstar :: ts1) =>
      match pUnary n ts1 with
      | some (e, ts2) =>
        if e.den = 1 then
          match ratPow v e.num with
          | some w => some (w, ts2)
          | none => none
        else none
      | none => none
    | some (v, ts1) => some (v, ts1)
    | none => none

/-- Atoms: a numeric literal or a parenthesized expression. -/
def pAtom : Nat → List Tok → Option (Rat × List Tok)
  | 0, _ => none
  | _ + 1, Tok.num v :: ts => some (v, ts)
  | n + 1, Tok.lpar :: ts =>
    match pExpr n ts with
    | some (v, Tok.rpar :: ts1) => some (v, ts1)
    | _ => none
  | _, _ => none

end

/-- The arithmetic fragment of the Python eval on the allowed character set:
tokenize, parse a full expression consuming every token, and produce its
exact rational value.  Failure models any exception raised by eval. -/
def pyEvalArith (s : String) : Option Rat :=
  match lexTokens s.toList with
  | some ts =>
    match pExpr (8 * ts.length + 8) ts with
    | some (v, []) => some v
    | _ => none
  | none => none

/-- The three possible answers of calculate_expenses: the invalid-character
message, the formatted numeric result, or the calculation-error message that
the except branch produces from a raised exception. -/
inductive CalcOutput where
  | invalidChars
  | ok (value : Rat)
  | calcError
deriving DecidableEq, Repr

/-- TravelTools.calculate_expenses from crew.py: reject any input with a
character outside allowed_chars without evaluating; otherwise evaluate and
return the result, turning any raised exception into the calculation-error
answer. -/
def calculate_expenses (operation : String) : CalcOutput :=
  if allowedOnly operation = false then CalcOutput.invalidChars
  else
    match pyEvalArith operation with
    | some v => CalcOutput.ok v
    | none => CalcOutput.calcError

/-! ## CLI input flow (crew.py, TravelPlannerApp._get_user_input)

The duration is derived from the two date strings with
datetime.strptime(s, the YYYY-MM-DD format); a parse failure of either
string, or a non-positive day difference, falls back to 7 days.  The model
reproduces the CPython strptime regular expression for this format: the
year is exactly four digits, the month one or two digits with value 1..12,
the day one or two digits with value 1..31 or a space followed by a nonzero
digit, the whole string consumed; datetime construction then requires year
at least 1 and a day that exists in the month.
-/

/-- A calendar date as produced by a successful strptime parse. -/
structure PyDate where
  year : Nat
  month : Nat
  day : Nat
deriving DecidableEq, Repr

/-- Gregorian leap-year rule, as used by the Python datetime module. -/
def isLeap (y : Nat) : Bool :=
  (y % 4 == 0 && y % 100 != 0) || y % 400 == 0

/-- Number of days in a month of a given year. -/
def daysInMonth (y m : Nat) : Nat :=
  if m == 2 then (if isLeap y then 29 else 28)
  else if m == 4 || m == 6 || m == 9 || m == 11 then 30
  else 31

/-- The strptime year field: exactly four digits. -/
def matchYear (s : List Char) : Option Nat :=
  if s.length == 4 && s.all Char.isDigit then some (digitsToNat s) else none

/-- The strptime month field: one or two digits with value 1..12. -/
def matchMonthStr (s : List Char) : Option Nat :=
  if s.all Char.isDigit && (s.length == 1 || s.length == 2) then
    let v := digitsToNat s
    if 1 ≤ v ∧ v ≤ 12 then some v else none
  else none

/-- The strptime day field: one or two digits with value 1..31, or a space
followed by a nonzero digit. -/
def matchDayStr (s : List Char) : Option Nat :=
  if s.all Char.isDigit && (s.length == 1 || s.length == 2) then
    let v := digitsToNat s
    if 1 ≤ v ∧ v ≤ 31 then some v else none
  else
    match s with
    | [' ', c] => if c.isDigit && c != '0' then some (c.toNat - '0'.toNat) else none
    | _ => none

/-- Split a character list at every occurrence of a separator character, as
the Python str.split with a one-character separator: the empty list yields
one empty part, adjacent separators yield empty parts. -/
def splitOnChar (sep : Char) : List Char → List (List Char)
  | [] => [[]]
  | c :: cs =>
    if c == sep then [] :: splitOnChar sep cs
    else
      match splitOnChar sep cs with
      | p :: ps => (c :: p) :: ps
      | [] => [[c]]

/-- datetime.strptime with the YYYY-MM-DD format: the string must consist of
a year, month and day field separated by single dashes and nothing else, and
the resulting date must exist (year at least 1, day within the month). -/
def parseDate (s : String) : Option PyDate :=
  match splitOnChar '-' s.toList with
  | [ys, ms, ds] =>
    match matchYear ys, matchMonthStr ms, matchDayStr ds with
    | some y, some m, some d =>
      if 1 ≤ y ∧ d ≤ daysInMonth y m then some (PyDate.mk y m d) else none
    | _, _, _ => none
  | _ => none

/-- Proleptic Gregorian ordinal of a date, as datetime.toordinal: the day
count since the day before year 1.  The difference of two ordinals is the
day difference that the subtraction of two datetimes yields. -/
def toOrdinal (d : PyDate) : Int :=
  let y : Int := (d.year : Int) - 1
  let dbm : Nat :=
    (List.range (d.month - 1)).foldl (fun a i => a + daysInMonth d.year (i + 1)) 0
  365 * y + y / 4 - y / 100 + y / 400 + (dbm : Int) + (d.day : Int)

/-- Duration derivation of _get_user_input: parse both dates, take the day
difference, replace a non-positive difference by 7; any parse failure also
falls back to 7. -/
def computeDuration (sd ed : String) : Int :=
  match parseDate sd, parseDate ed with
  | some s, some e =>
    let d := toOrdinal e - toOrdinal s
    if d ≤ 0 then 7 else d
  | _, _ => 7

/-! ## String preferences of the CLI input flow -/

/-- Python whitespace characters removed by str.strip. -/
def isPySpace (c : Char) : Bool :=
  c == ' ' || c == '\t' || c == '\n' || c == '\r' || c == '\x0b' || c == '\x0c'

/-- Python str.strip on a character list: remove leading and trailing
whitespace. -/
def pyStripList (l : List Char) : List Char :=
  ((l.dropWhile isPySpace).reverse.dropWhile isPySpace).reverse

/-- Python str.strip: remove leading and trailing whitespace. -/
def pyStrip (s : String) : String :=
  String.mk (pyStripList s.toList)

/-- Python str.lower on the ASCII inputs of the enumerated options. -/
def pyLower (s : String) : String :=
  String.mk (s.toList.map Char.toLower)

/-- The comma-separated interest entries after stripping, with blank entries
removed, as in the list comprehension of _get_user_input. -/
def interestEntries (raw : String) : List String :=
  ((splitOnChar ',' (pyStripList raw.toList)).map
      (fun cs => String.mk (pyStripList cs))).filter (fun t => t ≠ "")

/-- The interests derived from the raw input line: the stripped non-blank
comma-separated entries, or the two default tags when none remain. -/
def interestsOf (raw : String) : List String :=
  if interestEntries raw = [] then ["sightseeing", "local culture"] else interestEntries raw

/-- The enumerated budget options of _get_user_input. -/
def budget_options : List String := ["budget", "mid-range", "luxury"]

/-- The budget derived from the raw input line: strip, lowercase, and fall
back to mid-range when outside the enumerated options. -/
def budgetOf (raw : String) : String :=
  if pyLower (pyStrip raw) ∈ budget_options then pyLower (pyStrip raw) else "mid-range"

/-- The enumerated travel-style options of _get_user_input. -/
def style_options : List String :=
  ["relaxed", "adventure", "cultural", "romantic", "business"]

/-- The travel style derived from the raw input line: strip, lowercase, and
fall back to relaxed when outside the enumerated options. -/
def styleOf (raw : String) : String :=
  if pyLower (pyStrip raw) ∈ style_options then pyLower (pyStrip raw) else "relaxed"

/-! ## TravelRequest (crew.py, dataclass TravelRequest)

The dataclass carries the trip parameters; special_requirements defaults to
None and the post-init hook replaces None by the empty list.  We model the
constructed object as a structure whose building function mkTravelRequest
receives the optional argument, and asdict as an association list in field
order. -/

/-- The travel request value object after construction. -/
structure TravelRequest where
  origin : String
  destinations : List String
  start_date : String
  end_date : String
  duration : Int
  budget_range : String
  travel_style : String
  interests : List String
  group_size : Int
  special_requirements : List String
deriving DecidableEq, Repr

/-- Construction of a TravelRequest: the dataclass initializer followed by
the post-init hook, which replaces an absent special_requirements by the
empty list and touches nothing else. -/
def mkTravelRequest (origin : String) (destinations : List String)
    (start_date end_date : String) (duration : Int)
    (budget_range travel_style : String) (interests : List String)
    (group_size : Int) (special_requirements : Option (List String)) :
    TravelRequest :=
  TravelRequest.mk origin destinations start_date end_date duration
    budget_range travel_style interests group_size
    (special_requirements.getD [])

/-- A Python value occurring in the serialized request dictionary. -/
inductive PyVal where
  | str (s : String)
  | int (n : Int)
  | strList (l : List String)
deriving DecidableEq, Repr

/-- TravelRequest.to_dict, the asdict serialization in field order. -/
def TravelRequest.to_dict (r : TravelRequest) : List (String × PyVal) :=
  [("origin", PyVal.str r.origin),
   ("destinations", PyVal.strList r.destinations),
   ("start_date", PyVal.str r.start_date),
   ("end_date", PyVal.str r.end_date),
   ("duration", PyVal.int r.duration),
   ("budget_range", PyVal.str r.budget_range),
   ("travel_style", PyVal.str r.travel_style),
   ("interests", PyVal.strList r.interests),
   ("group_size", PyVal.int r.group_size),
   ("special_requirements", PyVal.strList r.special_requirements)]

/-! ## Planning workflow (crew.py, TravelPlannerAgents)

create_tasks builds three Task objects in a fixed order with explicit
dependencies and returns them as a list; plan_trip passes that list to a
Crew with the sequential process.  The long prompt template strings are
elided, as the specification declares prompt content a non-goal; each task
keeps its identity, its assigned agent role and its dependency list. -/

/-- The three generation steps of the workflow. -/
inductive TaskId where
  | destination_analysis
  | local_expert_insights
  | complete_itinerary
deriving DecidableEq, BEq, Repr

/-- A task of the workflow: its identity, the agent key it is assigned to,
and the tasks it declares as dependencies. -/
structure PlannerTask where
  id : TaskId
  agent : String
  dependencies : List TaskId
deriving DecidableEq, BEq, Repr

/-- TravelPlannerAgents.create_tasks: the three tasks in source order with
their declared dependencies.  The task bodies interpolate the request into
prompt text, which the model elides; the structure returned does not depend
on the request values. -/
def create_tasks (_request : TravelRequest) : List PlannerTask :=
  [PlannerTask.mk TaskId.destination_analysis "destination_analyst" [],
   PlannerTask.mk TaskId.local_expert_insights "local_expert"
     [TaskId.destination_analysis],
   PlannerTask.mk TaskId.complete_itinerary "travel_concierge"
     [TaskId.destination_analysis, TaskId.local_expert_insights]]

/-- The crewai process kinds reachable from this repository. -/
inductive ProcessKind where
  | sequential
  | hierarchical
deriving DecidableEq, Repr

/-- A crew: the task list handed over and the chosen process. -/
structure Crew where
  tasks : List PlannerTask
  process : ProcessKind
deriving DecidableEq, Repr

/-- TravelPlannerAgents.plan_trip: the crew it constructs and kicks off,
with the tasks from create_tasks and Process.sequential. -/
def plan_trip_crew (request : TravelRequest) : Crew :=
  Crew.mk (create_tasks request) ProcessKind.sequential

/-- Modelled semantics of the sequential process: tasks are issued in list
order and each issued task completes before the next is issued, so the
issue order is the task order of the crew. -/
def kickoffOrder (c : Crew) : List TaskId :=
  c.tasks.map PlannerTask.id

/-- Under in-order execution with completion before the next issue, every
dependency of a task has completed when the task is issued: walk the list
carrying the set of completed tasks. -/
def depsRespectedAux (done : List TaskId) : List PlannerTask → Bool
  | [] => true
  | t :: rest =>
    t.dependencies.all (fun d => done.contains d) &&
      depsRespectedAux (done ++ [t.id]) rest

/-- Every task of the list depends only on tasks completed before it. -/
def depsRespected (ts : List PlannerTask) : Bool :=
  depsRespectedAux [] ts

/-! ## HTTP endpoint (main.py, plan_trip)

The Flask handler reads the JSON body and the three fields outside the try
block; the try block covers only the crew construction and run, mapping
success to the itinerary JSON with status 200 and an exception to the error
JSON with status 500.  A failure of request.get_json (unparsable body) or of
data.get (body parsed to a non-object) is therefore raised outside the try
block and leaves the handler unhandled.  The crew call is an opaque
collaborator passed as a parameter. -/

/-- Outcome of a Python call: a value or a raised exception message. -/
inductive PyResult (α : Type) where
  | ok (a : α)
  | exn (msg : String)
deriving DecidableEq, Repr

/-- The JSON response bodies the handler builds. -/
inductive RespBody where
  | itinerary (s : String)
  | error (s : String)
deriving DecidableEq, Repr

/-- What the handler produces for one request: a JSON response with a status
code, or an exception escaping the handler. -/
inductive HandlerOutcome where
  | response (body : RespBody) (status : Nat)
  | unhandled (msg : String)
deriving DecidableEq, Repr

/-- The request body as seen by the first lines of the handler: the body
may fail to parse as JSON (get_json raises), parse to a non-object (the
subsequent attribute access raises), or parse to an object from which the
three fields are read with get. -/
inductive ReqBody where
  | badJson (msg : String)
  | nonDict (msg : String)
  | dict (origin destination interests : Option String)
deriving DecidableEq, Repr

/-- The /plan handler of main.py: field extraction outside the try block,
then the crew run inside it, with jsonify producing itinerary/200 on
success and error/500 on a caught exception. -/
def plan_trip_handler (body : ReqBody)
    (run : Option String → Option String → Option String → PyResult String) :
    HandlerOutcome :=
  match body with
  | ReqBody.badJson m => HandlerOutcome.unhandled m
  | ReqBody.nonDict m => HandlerOutcome.unhandled m
  | ReqBody.dict o d i =>
    match run o d i with
    | PyResult.ok r => HandlerOutcome.response (RespBody.itinerary r) 200
    | PyResult.exn e => HandlerOutcome.response (RespBody.error e) 500

/-! ## Startup credential checks (crew.py main, main.py module level)

The CLI main function returns early with an error message when GOOGLE_API_KEY
or SERPER_API_KEY is absent or empty (os.getenv yields None or a falsy empty
string).  The HTTP entry point main.py performs no credential check at module
level or before app.run; it proceeds regardless of the environment.  (It
imports the symbol TravelCrew from crew.py, which crew.py does not define,
an unconditional startup defect independent of credentials.) -/

/-- Whether an os.getenv result is falsy in Python: absent or empty. -/
def falsyEnv (v : Option String) : Bool :=
  match v with
  | none => true
  | some s => s = ""

/-- Outcome of an entry point at startup. -/
inductive StartOutcome where
  | failFast (missing : String)
  | proceed
deriving DecidableEq, Repr

/-- The main function of crew.py: check GOOGLE_API_KEY then SERPER_API_KEY,
returning early with an error message on the first falsy one, and only then
run the application. -/
def cli_main (env : String → Option String) : StartOutcome :=
  if falsyEnv (env "GOOGLE_API_KEY") then StartOutcome.failFast "GOOGLE_API_KEY"
  else if falsyEnv (env "SERPER_API_KEY") then StartOutcome.failFast "SERPER_API_KEY"
  else StartOutcome.proceed

/-- The module-level startup of main.py: no credential is read and no check
is performed before the server starts. -/
def http_startup (_env : String → Option String) : StartOutcome :=
  StartOutcome.proceed

/-- The credential check at the top of config.py, performed when that
module loads: it fails on a falsy GOOGLE_API_KEY and checks nothing else. -/
def config_check (env : String → Option String) : StartOutcome :=
  if falsyEnv (env "GOOGLE_API_KEY") then StartOutcome.failFast "GOOGLE_API_KEY"
  else StartOutcome.proceed

/-- Claim C1, as stated, fails: the string consisting of 1, slash, 0 is
confined to the allowed character set, yet the tool does not return the
numeric result of the expression; evaluation raises ZeroDivisionError and
the tool returns the calculation-error message. -/
theorem claim_C1_counterexample :
    allowedOnly "1/0" = true ∧
    calculate_expenses "1/0" = CalcOutput.calcError :=
  ⟨by decide, by with_unfolding_all decide⟩

/-- Claim C1 (amended): calculate_expenses rejects any input containing a
character outside the allowed set with the invalid-character message and
without evaluating; for inputs confined to the set it evaluates, returning
the numeric result when evaluation succeeds and the calculation-error
message when evaluation raises. -/
theorem claim_C1 (s : String) :
    (allowedOnly s = false → calculate_expenses s = CalcOutput.invalidChars) ∧
    (allowedOnly s = true →
      calculate_expenses s =
        match pyEvalArith s with
        | some v => CalcOutput.ok v
        | none => CalcOutput.calcError) := by
  constructor
  · intro h; simp [calculate_expenses, h]
  · intro h; simp [calculate_expenses, h]

/-- Witness for claim C1 at a concrete confined input. -/
theorem claim_C1_witness :
    allowedOnly "12*3+4" = true ∧
    calculate_expenses "12*3+4" = CalcOutput.ok 40 := by
  refine ⟨by decide, ?_⟩
  have h := (claim_C1 "12*3+4").2 (by decide)
  rw [h]
  with_unfolding_all decide

/-- Claim C9: calculate_expenses is total, producing one of its three
answers for every string, and any failure of the evaluation of a confined
input is caught and becomes the calculation-error answer. -/
theorem claim_C9 (s : String) :
    (calculate_expenses s = CalcOutput.invalidChars ∨
      (∃ v, calculate_expenses s = CalcOutput.ok v) ∨
      calculate_expenses s = CalcOutput.calcError) ∧
    (allowedOnly s = true → pyEvalArith s = none →
      calculate_expenses s = CalcOutput.calcError) := by
  constructor
  · cases hA : allowedOnly s with
    | false => left; simp [calculate_expenses, hA]
    | true =>
      cases hv : pyEvalArith s with
      | none => right; right; simp [calculate_expenses, hA, hv]
      | some v => right; left; exact ⟨v, by simp [calculate_expenses, hA, hv]⟩
  · intro hA hv; simp [calculate_expenses, hA, hv]

/-- Witness for claim C9: the empty string passes the character filter, its
evaluation fails (eval raises a SyntaxError), and the tool answers with the
calculation-error message. -/
theorem claim_C9_witness :
    allowedOnly "" = true ∧ pyEvalArith "" = none ∧
    calculate_expenses "" = CalcOutput.calcError :=
  ⟨by decide, by with_unfolding_all decide,
    (claim_C9 "").2 (by decide) (by with_unfolding_all decide)⟩

/-- Claim C2, as stated, fails: a request whose body does not parse as JSON
raises before the try block, so the failure is not converted into the JSON
error response but escapes the handler unhandled. -/
theorem claim_C2_counterexample :
    plan_trip_handler (ReqBody.badJson "BadRequest: failed to decode JSON")
        (fun _ _ _ => PyResult.ok "itinerary text") =
      HandlerOutcome.unhandled "BadRequest: failed to decode JSON" := rfl

/-- Claim C2 (amended): when the request body parses to a JSON object, the
handler returns the itinerary JSON with status 200 on success of the crew
run and the error JSON with status 500 on a raised exception; a failure
while reading the body (unparsable JSON, or JSON that is not an object)
occurs before the try block and escapes the handler unhandled. -/
theorem claim_C2 (o d i : Option String)
    (run : Option String → Option String → Option String → PyResult String) :
    ((∃ s, run o d i = PyResult.ok s ∧
        plan_trip_handler (ReqBody.dict o d i) run =
          HandlerOutcome.response (RespBody.itinerary s) 200) ∨
      (∃ e, run o d i = PyResult.exn e ∧
        plan_trip_handler (ReqBody.dict o d i) run =
          HandlerOutcome.response (RespBody.error e) 500)) ∧
    (∀ m, plan_trip_handler (ReqBody.badJson m) run =
        HandlerOutcome.unhandled m) ∧
    (∀ m, plan_trip_handler (ReqBody.nonDict m) run =
        HandlerOutcome.unhandled m) := by
  refine ⟨?_, fun m => rfl, fun m => rfl⟩
  cases h : run o d i with
  | ok s => exact Or.inl ⟨s, rfl, by simp [plan_trip_handler, h]⟩
  | exn e => exact Or.inr ⟨e, rfl, by simp [plan_trip_handler, h]⟩

/-- Claim C3, as stated, fails: with an environment providing neither
credential, the HTTP service of main.py starts serving instead of failing
fast, while the CLI does fail fast. -/
theorem claim_C3_counterexample :
    http_startup (fun _ => none) = StartOutcome.proceed ∧
    cli_main (fun _ => none) = StartOutcome.failFast "GOOGLE_API_KEY" :=
  ⟨rfl, by decide⟩

/-- Claim C3 (amended): the CLI entry point fails fast, before any planning
work, when either credential is absent or empty, checking the model key
first; with both present it proceeds.  The HTTP entry point performs no
credential check at startup and proceeds under every environment.  The
config.py check, when that module is imported, fails fast only on the model
key. -/
theorem claim_C3 (env : String → Option String) :
    (falsyEnv (env "GOOGLE_API_KEY") = true →
      cli_main env = StartOutcome.failFast "GOOGLE_API_KEY") ∧
    (falsyEnv (env "GOOGLE_API_KEY") = false →
      falsyEnv (env "SERPER_API_KEY") = true →
      cli_main env = StartOutcome.failFast "SERPER_API_KEY") ∧
    (falsyEnv (env "GOOGLE_API_KEY") = false →
      falsyEnv (env "SERPER_API_KEY") = false →
      cli_main env = StartOutcome.proceed) ∧
    http_startup env = StartOutcome.proceed ∧
    (falsyEnv (env "GOOGLE_API_KEY") = false →
      config_check env = StartOutcome.proceed) := by
  refine ⟨?_, ?_, ?_, rfl, ?_⟩ <;> intros <;> simp [cli_main, config_check, *]

/-- Witness for claim C3 at a concrete environment that provides the model
key but not the search key. -/
theorem claim_C3_witness :
    cli_main (fun k => if k = "GOOGLE_API_KEY" then some "g" else none) =
      StartOutcome.failFast "SERPER_API_KEY" ∧
    http_startup (fun k => if k = "GOOGLE_API_KEY" then some "g" else none) =
      StartOutcome.proceed :=
  ⟨((claim_C3 (fun k => if k = "GOOGLE_API_KEY" then some "g" else none)).2.1
      (by decide) (by decide)),
   rfl⟩

/-- Claim C4: if either date string fails to parse in the YYYY-MM-DD format,
the derived duration is the 7-day default. -/
theorem claim_C4 (sd ed : String)
    (h : parseDate sd = none ∨ parseDate ed = none) :
    computeDuration sd ed = 7 := by
  unfold computeDuration
  cases h1 : parseDate sd with
  | none => cases h2 : parseDate ed <;> rfl
  | some s =>
    cases h2 : parseDate ed with
    | none => rfl
    | some e => rw [h1, h2] at h; rcases h with h | h <;> cases h

/-- Witness for claim C4: a month of 13 fails to parse and the duration
falls back to 7. -/
theorem claim_C4_witness :
    parseDate "2024-13-05" = none ∧
    computeDuration "2024-13-05" "2024-01-02" = 7 :=
  ⟨by decide, claim_C4 "2024-13-05" "2024-01-02" (Or.inl (by decide))⟩

/-- Claim C10: the derived duration is always strictly positive, and in
particular when both dates parse but the day difference is non-positive the
duration is the 7-day default. -/
theorem claim_C10 (sd ed : String) :
    1 ≤ computeDuration sd ed ∧
    (∀ s e, parseDate sd = some s → parseDate ed = some e →
      toOrdinal e - toOrdinal s ≤ 0 → computeDuration sd ed = 7) := by
  constructor
  · unfold computeDuration
    cases h1 : parseDate sd with
    | none => cases h2 : parseDate ed <;> simp
    | some s =>
      cases h2 : parseDate ed with
      | none => simp
      | some e => simp only []; split <;> omega
  · intro s e h1 h2 hle
    simp [computeDuration, h1, h2, hle]

/-- Witness for claim C10: the end date one day before the start date gives
a negative difference and the duration falls back to 7. -/
theorem claim_C10_witness :
    computeDuration "2024-01-02" "2024-01-01" = 7 :=
  (claim_C10 "2024-01-02" "2024-01-01").2
    (PyDate.mk 2024 1 2) (PyDate.mk 2024 1 1)
    (by decide) (by decide) (by decide)

/-- Claim C5: when the interests input yields no non-blank comma-separated
entry, the interests fall back to exactly the two default tags. -/
theorem claim_C5 (raw : String) (h : interestEntries raw = []) :
    interestsOf raw = ["sightseeing", "local culture"] := by
  simp [interestsOf, h]

/-- Witness for claim C5 at an input of blanks and commas. -/
theorem claim_C5_witness :
    interestsOf " , " = ["sightseeing", "local culture"] :=
  claim_C5 " , " (by decide)

/-- Claim C6: after stripping and lowercasing, a budget outside the
enumerated options falls back to mid-range and a travel style outside the
enumerated options falls back to relaxed. -/
theorem claim_C6 (raw : String) :
    (pyLower (pyStrip raw) ∉ budget_options → budgetOf raw = "mid-range") ∧
    (pyLower (pyStrip raw) ∉ style_options → styleOf raw = "relaxed") := by
  constructor <;> intro h <;> simp [budgetOf, styleOf, h]

/-- Witness for claim C6 at concrete out-of-range inputs. -/
theorem claim_C6_witness :
    budgetOf " DELUXE " = "mid-range" ∧ styleOf "party" = "relaxed" :=
  ⟨(claim_C6 " DELUXE ").1 (by decide), (claim_C6 "party").2 (by decide)⟩

/-- Claim C7: after construction the special_requirements field is never
absent: passing none yields the empty list and to_dict carries the empty
collection; passing a list keeps it; construction alters no other field. -/
theorem claim_C7 (o : String) (ds : List String) (sd ed : String) (du : Int)
    (br ts : String) (il : List String) (gs : Int) :
    (mkTravelRequest o ds sd ed du br ts il gs none).special_requirements
        = [] ∧
    (∀ l, (mkTravelRequest o ds sd ed du br ts il gs
        (some l)).special_requirements = l) ∧
    (mkTravelRequest o ds sd ed du br ts il gs none).to_dict =
      [("origin", PyVal.str o), ("destinations", PyVal.strList ds),
       ("start_date", PyVal.str sd), ("end_date", PyVal.str ed),
       ("duration", PyVal.int du), ("budget_range", PyVal.str br),
       ("travel_style", PyVal.str ts), ("interests", PyVal.strList il),
       ("group_size", PyVal.int gs),
       ("special_requirements", PyVal.strList [])] ∧
    (∀ r, (mkTravelRequest o ds sd ed du br ts il gs r).origin = o ∧
      (mkTravelRequest o ds sd ed du br ts il gs r).destinations = ds ∧
      (mkTravelRequest o ds sd ed du br ts il gs r).start_date = sd ∧
      (mkTravelRequest o ds sd ed du br ts il gs r).end_date = ed ∧
      (mkTravelRequest o ds sd ed du br ts il gs r).duration = du ∧
      (mkTravelRequest o ds sd ed du br ts il gs r).budget_range = br ∧
      (mkTravelRequest o ds sd ed du br ts il gs r).travel_style = ts ∧
      (mkTravelRequest o ds sd ed du br ts il gs r).interests = il ∧
      (mkTravelRequest o ds sd ed du br ts il gs r).group_size = gs) :=
  ⟨rfl, fun _ => rfl, rfl,
    fun _ => ⟨rfl, rfl, rfl, rfl, rfl, rfl, rfl, rfl, rfl⟩⟩

/-- Claim C8: create_tasks returns exactly the three generation steps in the
order destination analysis, local expert insights, complete itinerary, the
second depending on the first and the third on both; plan_trip hands them to
a crew with the sequential process, whose in-order issue respects every
dependency. -/
theorem claim_C8 (r : TravelRequest) :
    (create_tasks r).map PlannerTask.id =
      [TaskId.destination_analysis, TaskId.local_expert_insights,
       TaskId.complete_itinerary] ∧
    (create_tasks r).map PlannerTask.dependencies =
      [[], [TaskId.destination_analysis],
       [TaskId.destination_analysis, TaskId.local_expert_insights]] ∧
    (plan_trip_crew r).process = ProcessKind.sequential ∧
    (plan_trip_crew r).tasks = create_tasks r ∧
    kickoffOrder (plan_trip_crew r) = (create_tasks r).map PlannerTask.id ∧
    depsRespected (plan_trip_crew r).tasks = true :=
  ⟨rfl, rfl, rfl, rfl, rfl, rfl⟩
